import Mathlib

/-!
# Label & Retention Lifecycle Engine — shallow embedding

A shallow embedding of the video label / retention core of the repository
(`apps/web/lib/classify-video-labels.ts`, the `/api/videos/[videoId]/labels`
route, and the `/api/cron/cleanup-expired-videos` cron route), together with
proofs relating it to the natural-language specification.

Modelling conventions:
* Machine identifiers (`nanoId()` values, organization ids, user ids) are
  modelled as `Nat`; a counter `nextId` in the database state produces fresh
  ids, matching the fact that `nanoId()` always yields an unused key.
* JS `Date` values are modelled as a calendar day index (`Int`) plus the
  elapsed milliseconds within the day; `setDate(getDate() + n)` — calendar-day
  addition — becomes `Date.addDays`, which shifts the day index and keeps the
  time of day.  Comparison is lexicographic, matching the epoch order of JS
  dates whose `ms` field is within a day.
* JS numbers used as confidences are modelled as `Rat`; all constants in the
  code (`0.75`, `0.8`, `0.7`) are exactly representable.
* The relational store is a record of lists of rows; drizzle's
  `select/insert/update/delete` calls become the list operations written out
  in each function body, in the order the source performs them.
* `fetch` and `JSON.parse` outcomes are inputs: an oracle call either throws
  (network / HTTP error, caught by the surrounding `try`) or yields a decoded
  document, where `none` stands for text that `JSON.parse` rejects.
-/

namespace Cap

/-- JS `Date`: a calendar-day index plus milliseconds within the day.
`setDate(getDate() + n)` is `addDays`. -/
structure Date where
  day : Int
  ms : Nat
deriving DecidableEq

/-- Calendar-day addition, the embedding of `d.setDate(d.getDate() + n)`. -/
def Date.addDays (d : Date) (n : Nat) : Date :=
  { d with day := d.day + n }

/-- Epoch order on dates (day-major, then time within day). -/
def Date.le (a b : Date) : Prop :=
  a.day < b.day ∨ (a.day = b.day ∧ a.ms ≤ b.ms)

instance (a b : Date) : Decidable (Date.le a b) := by
  unfold Date.le; infer_instance

/-- `ragStatus` / `ragDefault` / `rag_eligibility` enumeration. -/
inductive RagStatus where
  | eligible
  | excluded
  | pending
deriving DecidableEq

/-- A row of the `video_labels` table. -/
structure Label where
  id : Nat
  organizationId : Nat
  name : String
  displayName : String
  description : Option String
  color : String
  category : String
  retentionDays : Option Nat
  ragDefault : RagStatus
  isSystem : Bool
  isActive : Bool
deriving DecidableEq

/-- A row of the `video_label_assignments` table. -/
structure Assignment where
  id : Nat
  videoId : Nat
  labelId : Nat
  assignedById : Nat
  isAiSuggested : Bool
  aiConfidence : Option Rat
deriving DecidableEq

/-- One entry of `ClassificationResult.labels` (`LabelSuggestion`). -/
structure LabelSuggestion where
  labelName : String
  confidence : Rat
deriving DecidableEq

/-- The `ClassificationResult` interface. -/
structure ClassificationResult where
  success : Bool
  labels : List LabelSuggestion
  ragEligibility : RagStatus
  reasoning : String
  error : Option String
deriving DecidableEq

/-- The columns of the `videos` table this core reads or writes. -/
structure Video where
  id : Nat
  ownerId : Nat
  name : String
  createdAt : Date
  keepPermanently : Bool
  expiresAt : Option Date
  ragStatus : RagStatus
  aiSuggestedLabels : Option (List LabelSuggestion)
  aiClassifiedAt : Option Date
deriving DecidableEq

/-- A row of the `comments` table (only the foreign key matters here). -/
structure Comment where
  id : Nat
  videoId : Nat
deriving DecidableEq

/-- A row of the `space_videos` table (space/folder shares). -/
structure SpaceVideo where
  id : Nat
  videoId : Nat
deriving DecidableEq

/-- A row of the `shared_videos` table (direct shares). -/
structure SharedVideo where
  id : Nat
  videoId : Nat
deriving DecidableEq

/-- The relational store, plus the `nanoId()` freshness counter. -/
structure DB where
  videos : List Video
  labels : List Label
  assignments : List Assignment
  comments : List Comment
  spaceVideos : List SpaceVideo
  sharedVideos : List SharedVideo
  nextId : Nat
deriving DecidableEq

/-- `select().from(videos).where(eq(videos.id, videoId)).limit(1)`. -/
def DB.findVideo (db : DB) (videoId : Nat) : Option Video :=
  db.videos.find? (fun v => v.id == videoId)

/-- `update(videos).set(...).where(eq(videos.id, videoId))`. -/
def DB.updateVideo (db : DB) (videoId : Nat) (f : Video → Video) : DB :=
  { db with videos := db.videos.map (fun v => if v.id == videoId then f v else v) }

/-- The inner join of a video's assignment rows with the `video_labels` table,
as read by `updateVideoExpiration`. -/
def DB.assignedLabels (db : DB) (videoId : Nat) : List Label :=
  (db.assignments.filter (fun a => a.videoId == videoId)).flatMap
    (fun a => db.labels.filter (fun l => l.id == a.labelId))

/-- `Math.min(...retentionDays)` over a list the caller has checked nonempty. -/
def minRetention : List Nat → Nat
  | [] => 0
  | h :: t => t.foldl Nat.min h

/-- `updateVideoExpiration` from `classify-video-labels.ts`: reads the video,
honours `keepPermanently`, takes the minimum non-null `retentionDays` of the
assigned labels, persists the computed `expiresAt` and returns it. -/
def updateVideoExpiration (db : DB) (videoId : Nat) : DB × Option Date :=
  match db.findVideo videoId with
  | none => (db, none)
  | some v =>
    if v.keepPermanently then
      (db.updateVideo videoId (fun w => { w with expiresAt := none }), none)
    else
      let retentionDays := (db.assignedLabels videoId).filterMap (fun l => l.retentionDays)
      if retentionDays.length = 0 then
        (db.updateVideo videoId (fun w => { w with expiresAt := none }), none)
      else
        let expiresAt := v.createdAt.addDays (minRetention retentionDays)
        (db.updateVideo videoId (fun w => { w with expiresAt := some expiresAt }), some expiresAt)

/-- The Retention Calculator of spec §4.2, written from the spec's words:
`keepPermanently` forces `none`; otherwise the non-null `retentionDays` are
collected and, if any remain, the minimum is added to `createdAt` by
calendar-day arithmetic. -/
def computeExpirationSpec (keepPermanently : Bool) (labelRetentions : List (Option Nat))
    (createdAt : Date) : Option Date :=
  if keepPermanently then none
  else
    match labelRetentions.filterMap id with
    | [] => none
    | ds => some (createdAt.addDays (minRetention ds))

/-- The `retentionDays` column of all labels currently assigned to a video. -/
def labelRetentions (db : DB) (videoId : Nat) : List (Option Nat) :=
  (db.assignedLabels videoId).map (fun l => l.retentionDays)

/-! ## Classifier: response parsing and write-back -/

/-- The decoded JSON document an oracle response may carry; `none` in a field
means the field is absent from the document. -/
structure OracleData where
  contentTypePrimary : Option String
  contentTypeConfidence : Option Rat
  contentTypeSecondary : Option String
  departmentLabel : Option String
  departmentConfidence : Option Rat
  ragEligibility : Option RagStatus
  reasoning : Option String
deriving DecidableEq

/-- JS truthiness of an optional string field (`undefined` and `""` are falsy). -/
def truthyStr : Option String → Bool
  | some s => s != ""
  | none => false

/-- `v || d` for an optional JS number (`undefined` and `0` are falsy). -/
def numOr (v : Option Rat) (d : Rat) : Rat :=
  match v with
  | some x => if x = 0 then d else x
  | none => d

/-- `v || d` for an optional JS string (`undefined` and `""` are falsy). -/
def strOr (v : Option String) (d : String) : String :=
  match v with
  | some s => if s = "" then d else s
  | none => d

/-- `parseClassificationResponse`: `none` input stands for text rejected by
`JSON.parse` (the `catch` branch); a decoded document yields the flat
suggestion list — primary content type (confidence defaulted to `0.8`),
secondary content type (confidence discounted by `×0.7`), department
(confidence defaulted to `0.7`). -/
def parseClassificationResponse (content : Option OracleData) : ClassificationResult :=
  match content with
  | none =>
    { success := false, labels := [], ragEligibility := .pending,
      reasoning := "Failed to parse classification response", error := some "JSON parse error" }
  | some data =>
    let labels : List LabelSuggestion :=
      (if truthyStr data.contentTypePrimary then
        [{ labelName := data.contentTypePrimary.getD "",
           confidence := numOr data.contentTypeConfidence 0.8 }]
       else [])
      ++ (if truthyStr data.contentTypeSecondary then
        [{ labelName := data.contentTypeSecondary.getD "",
           confidence := (numOr data.contentTypeConfidence 0.8) * 0.7 }]
       else [])
      ++ (if truthyStr data.departmentLabel then
        [{ labelName := data.departmentLabel.getD "",
           confidence := numOr data.departmentConfidence 0.7 }]
       else [])
    { success := true, labels := labels,
      ragEligibility := data.ragEligibility.getD .pending,
      reasoning := strOr data.reasoning "Classification complete", error := none }

/-- Outcome of the oracle round-trip inside `classifyVideoLabels`'s `try`
block: either the `fetch`/HTTP layer throws, or it yields response text,
decoded here (`none` = not valid JSON). -/
inductive OracleOutcome where
  | fetchError
  | content (data : Option OracleData)

/-- `classifyVideoLabels`: configuration guard, oracle call, parse, then the
unconditional write-back of `aiSuggestedLabels` / `aiClassifiedAt` /
`ragStatus` onto the video row.  `hasApiKey` models `serverEnv().OPENAI_API_KEY`
being set; `now` models `new Date()`. -/
def classifyVideoLabels (db : DB) (videoId : Nat) (hasApiKey : Bool)
    (oracle : OracleOutcome) (now : Date) : DB × ClassificationResult :=
  if !hasApiKey then
    (db, { success := false, labels := [], ragEligibility := .pending,
           reasoning := "OpenAI API key not configured", error := some "Missing OPENAI_API_KEY" })
  else
    match oracle with
    | .fetchError =>
      (db, { success := false, labels := [], ragEligibility := .pending,
             reasoning := "Classification failed", error := some "OpenAI API error" })
    | .content data =>
      let parsed := parseClassificationResponse data
      (db.updateVideo videoId (fun v =>
        { v with aiSuggestedLabels := some parsed.labels,
                 aiClassifiedAt := some now,
                 ragStatus := parsed.ragEligibility }), parsed)

/-! ## Auto-Assigner -/

/-- The organisation's active labels, as read at the top of `autoAssignLabels`. -/
def orgActiveLabels (db : DB) (orgId : Nat) : List Label :=
  db.labels.filter (fun l => l.organizationId == orgId && l.isActive)

/-- Lookup in the JS `Map` built from the label list (later entries overwrite
earlier ones, so the last matching label wins). -/
def labelMapGet (labels : List Label) (name : String) : Option Label :=
  (labels.filter (fun l => l.name == name)).getLast?

/-- One iteration of the suggestion loop in `autoAssignLabels`: confidence
threshold, catalog lookup, duplicate check, insert.  The accumulator carries
the store and the `assigned` / `skipped` lists. -/
def autoAssignStep (videoId systemUserId : Nat) (orgLabels : List Label)
    (acc : DB × List String × List String) (s : LabelSuggestion) :
    DB × List String × List String :=
  let (db, assigned, skipped) := acc
  if s.confidence < 0.75 then
    (db, assigned, skipped ++ [s.labelName])
  else
    match labelMapGet orgLabels s.labelName with
    | none => (db, assigned, skipped ++ [s.labelName])
    | some label =>
      let existing := db.assignments.filter
        (fun a => a.videoId == videoId && a.labelId == label.id)
      if existing.length > 0 then
        (db, assigned, skipped ++ [s.labelName])
      else
        ({ db with
            assignments := db.assignments ++
              [{ id := db.nextId, videoId := videoId, labelId := label.id,
                 assignedById := systemUserId, isAiSuggested := true,
                 aiConfidence := some s.confidence }],
            nextId := db.nextId + 1 },
         assigned ++ [s.labelName], skipped)

/-- Result record of `autoAssignLabels`. -/
structure AutoAssignResult where
  assigned : List String
  skipped : List String
deriving DecidableEq

/-- `autoAssignLabels`: reads the organisation's active labels, folds the
suggestion loop over the classification result, then unconditionally re-runs
`updateVideoExpiration`. -/
def autoAssignLabels (db : DB) (videoId orgId : Nat)
    (classification : ClassificationResult) (systemUserId : Nat) :
    DB × AutoAssignResult :=
  let orgLabels := orgActiveLabels db orgId
  let out := classification.labels.foldl (autoAssignStep videoId systemUserId orgLabels)
    (db, [], [])
  let upd := updateVideoExpiration out.1 videoId
  (upd.1, { assigned := out.2.1, skipped := out.2.2 })

/-! ## `POST /api/videos/[videoId]/labels` -/

/-- Outcome of the labels `POST` route (the JSON body it returns). -/
inductive PostLabelsResult where
  | unauthorized
  | notFound
  | forbidden
  | ok (added removed : Nat) (expiresAt : Option Date) (keepPermanently : Option Bool)
deriving DecidableEq

/-- One `insert(videoLabelAssignments).values(...)` row built by the route. -/
def insertManualAssignment (videoId userId : Nat) (db : DB) (labelId : Nat) : DB :=
  { db with
      assignments := db.assignments ++
        [{ id := db.nextId, videoId := videoId, labelId := labelId,
           assignedById := userId, isAiSuggested := false, aiConfidence := none }],
      nextId := db.nextId + 1 }

/-- The assignment-diff / `keepPermanently` writes of the labels `POST` route
(everything between the ownership check and the `updateVideoExpiration` call):
delete the unselected assignments, insert the new ones, update the flag.
Returns the store plus the `added` / `removed` counts of the response. -/
def postVideoLabelsCore (db : DB) (videoId userId : Nat) (labelIds : List Nat)
    (keepPermanently : Option Bool) : DB × Nat × Nat :=
  let currentAssignments := db.assignments.filter (fun a => a.videoId == videoId)
  let currentLabelIds := currentAssignments.map (fun a => a.labelId)
  let labelsToAdd := labelIds.filter (fun i => !currentLabelIds.contains i)
  let labelsToRemove := currentLabelIds.filter (fun i => !labelIds.contains i)
  let db1 :=
    if labelsToRemove.length > 0 then
      { db with assignments := db.assignments.filter (fun a => !(a.videoId == videoId && labelsToRemove.contains a.labelId)) }
    else db
  let db2 :=
    if labelsToAdd.length > 0 then
      labelsToAdd.foldl (insertManualAssignment videoId userId) db1
    else db1
  let db3 :=
    match keepPermanently with
    | some kp => db2.updateVideo videoId (fun w => { w with keepPermanently := kp })
    | none => db2
  (db3, labelsToAdd.length, labelsToRemove.length)

/-- The `POST` handler of `/api/videos/[videoId]/labels`: auth and ownership
checks, the assignment/flag writes, then `updateVideoExpiration` before
responding.  `user` models `getCurrentUser()`. -/
def postVideoLabels (db : DB) (videoId : Nat) (user : Option Nat)
    (labelIds : List Nat) (keepPermanently : Option Bool) : DB × PostLabelsResult :=
  match user with
  | none => (db, .unauthorized)
  | some userId =>
    match db.findVideo videoId with
    | none => (db, .notFound)
    | some v =>
      if v.ownerId != userId then (db, .forbidden)
      else
        let core := postVideoLabelsCore db videoId userId labelIds keepPermanently
        let upd := updateVideoExpiration core.1 videoId
        (upd.1, .ok core.2.1 core.2.2
          ((upd.1.findVideo videoId).bind (fun w => w.expiresAt))
          ((upd.1.findVideo videoId).map (fun w => w.keepPermanently)))

/-! ## System label seeding -/

/-- One entry of `SYSTEM_LABELS.content_type`. -/
structure SystemContentLabel where
  name : String
  displayName : String
  description : String
  color : String
  retentionDays : Option Nat
  ragDefault : RagStatus
deriving DecidableEq

/-- One entry of `SYSTEM_LABELS.department`. -/
structure SystemDepartmentLabel where
  name : String
  displayName : String
  color : String
deriving DecidableEq

/-- `SYSTEM_LABELS.content_type`: the nine fixed content-type labels. -/
def SYSTEM_LABELS_content_type : List SystemContentLabel :=
  [ { name := "TUTORIAL", displayName := "Tutorial",
      description := "Comment faire X dans un outil, guide pratique",
      color := "#10B981", retentionDays := none, ragDefault := .eligible },
    { name := "ONBOARDING", displayName := "Onboarding",
      description := "Formation nouveaux employ\xe9s, pr\xe9sentation \xe9quipe",
      color := "#10B981", retentionDays := none, ragDefault := .eligible },
    { name := "PROCESS", displayName := "Process",
      description := "Explication d\x27un workflow interne, proc\xe9dure",
      color := "#10B981", retentionDays := none, ragDefault := .eligible },
    { name := "DEMO", displayName := "Demo",
      description := "D\xe9monstration produit/feature officielle",
      color := "#3B82F6", retentionDays := none, ragDefault := .eligible },
    { name := "TROUBLESHOOTING", displayName := "Troubleshooting",
      description := "R\xe9solution de probl\xe8me, debugging",
      color := "#F59E0B", retentionDays := some 14, ragDefault := .pending },
    { name := "QUICK_ANSWER", displayName := "Quick Answer",
      description := "R\xe9ponse rapide \xe0 un coll\xe8gue, explication ponctuelle",
      color := "#EF4444", retentionDays := some 14, ragDefault := .excluded },
    { name := "MEETING_RECORDING", displayName := "Meeting Recording",
      description := "Enregistrement de r\xe9union, call d\x27\xe9quipe",
      color := "#8B5CF6", retentionDays := some 30, ragDefault := .pending },
    { name := "CLIENT_CALL", displayName := "Client Call",
      description := "Enregistrement appel client, demo client",
      color := "#EC4899", retentionDays := some 30, ragDefault := .pending },
    { name := "ANNOUNCEMENT", displayName := "Announcement",
      description := "Communication interne, annonce",
      color := "#6366F1", retentionDays := some 90, ragDefault := .pending } ]

/-- `SYSTEM_LABELS.department`: the eight fixed department labels. -/
def SYSTEM_LABELS_department : List SystemDepartmentLabel :=
  [ { name := "SALES", displayName := "Sales", color := "#3B82F6" },
    { name := "TECH", displayName := "Tech", color := "#10B981" },
    { name := "PRODUCT", displayName := "Product", color := "#8B5CF6" },
    { name := "COMPLIANCE", displayName := "Compliance", color := "#F59E0B" },
    { name := "FINANCE", displayName := "Finance", color := "#6366F1" },
    { name := "HR", displayName := "HR", color := "#EC4899" },
    { name := "SUPPORT", displayName := "Support", color := "#14B8A6" },
    { name := "MARKETING", displayName := "Marketing", color := "#F97316" } ]

/-- The label row a content-type seed insert produces. -/
def contentLabelRow (orgId rowId : Nat) (lab : SystemContentLabel) : Label :=
  { id := rowId, organizationId := orgId, name := lab.name,
    displayName := lab.displayName, description := some lab.description,
    color := lab.color, category := "content_type",
    retentionDays := lab.retentionDays, ragDefault := lab.ragDefault,
    isSystem := true, isActive := true }

/-- The label row a department seed insert produces. -/
def departmentLabelRow (orgId rowId : Nat) (lab : SystemDepartmentLabel) : Label :=
  { id := rowId, organizationId := orgId, name := lab.name,
    displayName := lab.displayName, description := none,
    color := lab.color, category := "department",
    retentionDays := none, ragDefault := .pending,
    isSystem := true, isActive := true }

/-- One content-type seed insert. -/
def seedContentStep (orgId : Nat) (d : DB) (lab : SystemContentLabel) : DB :=
  { d with labels := d.labels ++ [contentLabelRow orgId d.nextId lab], nextId := d.nextId + 1 }

/-- One department seed insert. -/
def seedDepartmentStep (orgId : Nat) (d : DB) (lab : SystemDepartmentLabel) : DB :=
  { d with labels := d.labels ++ [departmentLabelRow orgId d.nextId lab], nextId := d.nextId + 1 }

/-- `seedSystemLabels`: no-op when the organisation already has a system label
(the source's existence check filters on `isSystem` only, with `limit(1)`);
otherwise inserts every content-type label then every department label. -/
def seedSystemLabels (db : DB) (orgId : Nat) : DB :=
  let existing := (db.labels.filter
    (fun l => l.organizationId == orgId && l.isSystem)).take 1
  if existing.length > 0 then db
  else
    let db1 := SYSTEM_LABELS_content_type.foldl (seedContentStep orgId) db
    SYSTEM_LABELS_department.foldl (seedDepartmentStep orgId) db1

/-! ## Label promotion -/

/-- The structured verdict `evaluateLabelForPromotion` returns. -/
structure LabelEvaluationResult where
  shouldPromote : Bool
  reason : String
  englishName : Option String
  englishDisplayName : Option String
  englishDescription : Option String
  duplicateOf : Option String
  suggestedCategory : String
deriving DecidableEq

/-- The row `promoteLabelToSystem` inserts for one organisation. -/
def promotedLabelRow (orgId rowId : Nat) (evaluation : LabelEvaluationResult)
    (originalColor : String) (retentionDays : Option Nat) : Label :=
  { id := rowId, organizationId := orgId,
    name := evaluation.englishName.getD "",
    displayName := evaluation.englishDisplayName.getD "",
    description := evaluation.englishDescription,
    color := originalColor, category := evaluation.suggestedCategory,
    retentionDays := retentionDays, ragDefault := .pending,
    isSystem := true, isActive := true }

/-- First-occurrence deduplication, modelling `selectDistinct`. -/
def dedupKeepFirst (xs : List Nat) : List Nat :=
  xs.foldl (fun acc x => if acc.contains x then acc else acc ++ [x]) []

/-- The insert inside the promotion fan-out loop, for one organisation. -/
def promoteInsert (org : Nat) (evaluation : LabelEvaluationResult)
    (originalColor : String) (retentionDays : Option Nat) (db : DB) : DB :=
  { db with labels := db.labels ++ [promotedLabelRow org db.nextId evaluation originalColor retentionDays], nextId := db.nextId + 1 }

/-- The per-organisation fan-out loop of `promoteLabelToSystem`.  The loop body
has no error handling: `insertOk org = false` models `db().insert` throwing for
that organisation, which propagates out of the loop — the store mutated so far
is kept (earlier inserts are already committed) and the error escapes
(`some message` in the second component). -/
def promoteFanOut (db : DB) (orgs : List Nat) (evaluation : LabelEvaluationResult)
    (originalColor : String) (retentionDays : Option Nat) (insertOk : Nat → Bool) :
    DB × Option String :=
  match orgs with
  | [] => (db, none)
  | org :: rest =>
    let existingForOrg := (db.labels.filter
      (fun l => l.organizationId == org && l.name == evaluation.englishName.getD "")).take 1
    if existingForOrg.length = 0 then
      if insertOk org then
        promoteFanOut (promoteInsert org evaluation originalColor retentionDays db)
          rest evaluation originalColor retentionDays insertOk
      else (db, some "insert failed")
    else
      promoteFanOut db rest evaluation originalColor retentionDays insertOk

/-- `promoteLabelToSystem`: verdict guard, global-uniqueness check among system
labels, then the fan-out over every organisation that has system labels.  The
second component is `.error` when an insert inside the fan-out threw. -/
def promoteLabelToSystem (db : DB) (evaluation : LabelEvaluationResult)
    (originalColor : String) (retentionDays : Option Nat) (insertOk : Nat → Bool) :
    DB × Except String (Bool × String) :=
  if !evaluation.shouldPromote then (db, .ok (false, evaluation.reason))
  else
    match evaluation.englishName with
    | none => (db, .ok (false, evaluation.reason))
    | some ename =>
      let existingSystemLabel := (db.labels.filter
        (fun l => l.name == ename && l.isSystem)).take 1
      if existingSystemLabel.length > 0 then
        (db, .ok (false, "Label already exists as system label"))
      else
        let orgsWithLabels := dedupKeepFirst
          ((db.labels.filter (fun l => l.isSystem)).map (fun l => l.organizationId))
        let out := promoteFanOut db orgsWithLabels evaluation originalColor retentionDays insertOk
        match out.2 with
        | some e => (out.1, .error e)
        | none => (out.1, .ok (true, "Label promoted to system labels"))

/-! ## Cleanup job -/

/-- A binary object in the external asset store, keyed by the video whose
storage prefix it lives under. -/
structure S3Object where
  videoId : Nat
  key : Nat
deriving DecidableEq

/-- `deleteVideoFiles`: best-effort bulk delete of the objects under the
video's prefix; a storage failure (`ok = false`) is caught (`Effect.catchAll`)
and leaves the store unchanged — it never propagates. -/
def deleteVideoFiles (s3 : List S3Object) (videoId : Nat) (ok : Bool) : List S3Object :=
  if ok then s3.filter (fun o => o.videoId != videoId) else s3

/-- The `where` clause of the cleanup selection:
`isNotNull(expiresAt) && expiresAt <= now && keepPermanently = false`. -/
def expiredFilter (now : Date) (v : Video) : Bool :=
  (match v.expiresAt with
   | some e => decide (e.le now)
   | none => false) && v.keepPermanently == false

/-- The candidate list the cleanup job selects. -/
def expiredSelection (db : DB) (now : Date) : List Video :=
  db.videos.filter (expiredFilter now)

/-- Step 1 of the per-video deletion sequence: `delete(comments)`. -/
def deleteComments (db : DB) (videoId : Nat) : DB :=
  { db with comments := db.comments.filter (fun c => c.videoId != videoId) }

/-- Step 2: `delete(videoLabelAssignments)`. -/
def deleteLabelAssignments (db : DB) (videoId : Nat) : DB :=
  { db with assignments := db.assignments.filter (fun a => a.videoId != videoId) }

/-- Step 3: `delete(spaceVideos)`. -/
def deleteSpaceVideos (db : DB) (videoId : Nat) : DB :=
  { db with spaceVideos := db.spaceVideos.filter (fun s => s.videoId != videoId) }

/-- Step 4: `delete(sharedVideos)`. -/
def deleteSharedVideos (db : DB) (videoId : Nat) : DB :=
  { db with sharedVideos := db.sharedVideos.filter (fun s => s.videoId != videoId) }

/-- Step 5: `delete(videos)` — the video row itself. -/
def deleteVideoRow (db : DB) (videoId : Nat) : DB :=
  { db with videos := db.videos.filter (fun v => v.id != videoId) }

/-- The fixed, ordered deletion pipeline of the cleanup job. -/
def deletionSteps : List (DB → Nat → DB) :=
  [deleteComments, deleteLabelAssignments, deleteSpaceVideos, deleteSharedVideos, deleteVideoRow]

/-- Run a prefix of the deletion pipeline in order. -/
def applyDeletionSteps (db : DB) (videoId : Nat) (steps : List (DB → Nat → DB)) : DB :=
  steps.foldl (fun d f => f d videoId) db

/-- One entry of `CleanupResult.details`. -/
structure CleanupDetail where
  videoId : Nat
  name : String
  expiresAt : Option Date
  deleted : Bool
  error : Option String
deriving DecidableEq

/-- The report `cleanupExpiredVideos` returns. -/
structure CleanupResult where
  deleted : Nat
  errors : Nat
  details : List CleanupDetail
deriving DecidableEq

/-- The `try` body for one candidate: best-effort asset deletion, then the
five ordered row deletions.  `failStep v = some k` models a thrown datastore
error at pipeline step `k` for that video: the first `k` steps have already
run, the rest are abandoned, and the `catch` records an error detail; `none`
is the success path. -/
def cleanupVideoStep (s3ok : Nat → Bool) (failStep : Nat → Option Nat)
    (acc : DB × List S3Object × CleanupResult) (v : Video) :
    DB × List S3Object × CleanupResult :=
  let (db, s3, res) := acc
  let s3' := deleteVideoFiles s3 v.id (s3ok v.id)
  match failStep v.id with
  | none =>
    (applyDeletionSteps db v.id deletionSteps, s3',
     { res with deleted := res.deleted + 1,
                details := res.details ++ [⟨v.id, v.name, v.expiresAt, true, none⟩] })
  | some k =>
    (applyDeletionSteps db v.id (deletionSteps.take k), s3',
     { res with errors := res.errors + 1,
                details := res.details ++ [⟨v.id, v.name, v.expiresAt, false, some "Unknown error"⟩] })

/-- `cleanupExpiredVideos`: select the expired candidates, then process each
one independently inside its own `try`/`catch`. -/
def cleanupExpiredVideos (db : DB) (s3 : List S3Object) (now : Date)
    (s3ok : Nat → Bool) (failStep : Nat → Option Nat) :
    DB × List S3Object × CleanupResult :=
  (expiredSelection db now).foldl (cleanupVideoStep s3ok failStep)
    (db, s3, { deleted := 0, errors := 0, details := [] })

end Cap

namespace Cap

/-! ## Helper lemmas about the store primitives -/

theorem find?_map_of_id_preserved {α : Type} [BEq α] (idOf : Video → α) (key : α)
    (f : Video → Video) (hf : ∀ w, idOf (f w) = idOf w) :
    ∀ l : List Video,
      (l.map (fun v => if idOf v == key then f v else v)).find? (fun v => idOf v == key)
        = (l.find? (fun v => idOf v == key)).map f := by
  intro l
  induction l with
  | nil => rfl
  | cons v t ih =>
    by_cases h : (idOf v == key) = true
    · simp [List.find?, h, hf]
    · simp only [List.map_cons, List.find?]
      rw [if_neg (by simp [h])]
      simp only [h, Bool.false_eq_true]
      simpa [h] using ih

theorem findVideo_updateVideo (db : DB) (videoId : Nat) (f : Video → Video)
    (hf : ∀ w, (f w).id = w.id) :
    (db.updateVideo videoId f).findVideo videoId = (db.findVideo videoId).map f := by
  unfold DB.findVideo DB.updateVideo
  exact find?_map_of_id_preserved (fun v => v.id) videoId f hf db.videos

theorem assignedLabels_updateVideo (db : DB) (videoId x : Nat) (f : Video → Video) :
    (db.updateVideo videoId f).assignedLabels x = db.assignedLabels x := rfl

/-- `updateVideoExpiration` computes exactly the spec's Retention Calculator and
persists it on the video row. -/
theorem updateVideoExpiration_eq (db : DB) (videoId : Nat) (v : Video)
    (h : db.findVideo videoId = some v) :
    updateVideoExpiration db videoId
      = (db.updateVideo videoId (fun w =>
            { w with expiresAt := computeExpirationSpec v.keepPermanently (labelRetentions db videoId) v.createdAt }),
         computeExpirationSpec v.keepPermanently (labelRetentions db videoId) v.createdAt) := by
  unfold updateVideoExpiration computeExpirationSpec labelRetentions
  rw [h]
  have hfm : ((db.assignedLabels videoId).map (fun l => l.retentionDays)).filterMap id
      = (db.assignedLabels videoId).filterMap (fun l => l.retentionDays) := by
    rw [List.filterMap_map]; rfl
  by_cases hkp : v.keepPermanently
  · simp [hkp]
  · simp only [hkp, Bool.false_eq_true, if_false, if_neg]
    rw [hfm]
    cases hds : (db.assignedLabels videoId).filterMap (fun l => l.retentionDays) with
    | nil => simp
    | cons d ds => simp

end Cap

namespace Cap

/-- C1: for a video with `keepPermanently = false`, `updateVideoExpiration`
returns and persists `createdAt` plus (by calendar-day addition) the minimum
non-null `retentionDays` of the labels assigned to it, and `none` when no
assigned label has a non-null `retentionDays`; with `keepPermanently = true` it
returns and persists `none` regardless of the assigned labels.  All cases are
the spec Retention Calculator `computeExpirationSpec`. -/
theorem updateVideoExpiration_matches_retention_spec (db : DB) (videoId : Nat) (v : Video)
    (h : db.findVideo videoId = some v) :
    (updateVideoExpiration db videoId).2
        = computeExpirationSpec v.keepPermanently (labelRetentions db videoId) v.createdAt
      ∧ (updateVideoExpiration db videoId).1.findVideo videoId
        = some { v with expiresAt := (updateVideoExpiration db videoId).2 } := by
  rw [updateVideoExpiration_eq db videoId v h]
  refine ⟨rfl, ?_⟩
  rw [findVideo_updateVideo db videoId
        (fun w => { w with expiresAt := computeExpirationSpec v.keepPermanently (labelRetentions db videoId) v.createdAt })
        (fun w => rfl), h]
  rfl

/-- A sample `TROUBLESHOOTING`-style label with a 14-day retention. -/
def sampleLabel14 : Label :=
  { id := 2, organizationId := 1, name := "TROUBLESHOOTING",
    displayName := "Troubleshooting", description := none, color := "#F59E0B",
    category := "content_type", retentionDays := some 14, ragDefault := .pending,
    isSystem := true, isActive := true }

/-- A sample `TECH`-style department label with no retention. -/
def sampleLabelNull : Label :=
  { id := 3, organizationId := 1, name := "TECH",
    displayName := "Tech", description := none, color := "#10B981",
    category := "department", retentionDays := none, ragDefault := .pending,
    isSystem := true, isActive := true }

/-- A sample video, not kept permanently. -/
def sampleVideo : Video :=
  { id := 1, ownerId := 5, name := "v", createdAt := ⟨100, 0⟩,
    keepPermanently := false, expiresAt := none, ragStatus := .pending,
    aiSuggestedLabels := none, aiClassifiedAt := none }

/-- A sample store: one video carrying both sample labels. -/
def sampleDB : DB :=
  { videos := [sampleVideo], labels := [sampleLabel14, sampleLabelNull],
    assignments := [⟨10, 1, 2, 5, false, none⟩, ⟨11, 1, 3, 5, false, none⟩],
    comments := [], spaceVideos := [], sharedVideos := [], nextId := 20 }

/-- Witness for C1: a video with labels of retention 14 and null expires 14
calendar days after creation. -/
theorem updateVideoExpiration_matches_retention_spec_witness :
    (updateVideoExpiration sampleDB 1).2
        = computeExpirationSpec sampleVideo.keepPermanently (labelRetentions sampleDB 1)
            sampleVideo.createdAt
      ∧ (updateVideoExpiration sampleDB 1).1.findVideo 1
        = some { sampleVideo with expiresAt := (updateVideoExpiration sampleDB 1).2 } :=
  updateVideoExpiration_matches_retention_spec sampleDB 1 sampleVideo (by decide)

end Cap

namespace Cap

/-! ## The expiration invariant (spec §3) and the write paths that restore it -/

/-- The invariant of spec §3: the stored `expiresAt` of the video equals the
Retention Calculator applied to the store's current state. -/
def expirationInvariant (db : DB) (videoId : Nat) : Prop :=
  ∃ w, db.findVideo videoId = some w ∧
    w.expiresAt = computeExpirationSpec w.keepPermanently (labelRetentions db videoId) w.createdAt

theorem expirationInvariant_updateVideoExpiration (db : DB) (videoId : Nat) (v : Video)
    (h : db.findVideo videoId = some v) :
    expirationInvariant (updateVideoExpiration db videoId).1 videoId := by
  rw [updateVideoExpiration_eq db videoId v h]
  refine ⟨{ v with expiresAt := computeExpirationSpec v.keepPermanently (labelRetentions db videoId) v.createdAt }, ?_, ?_⟩
  · have hf := findVideo_updateVideo db videoId
      (fun w => { w with expiresAt := computeExpirationSpec v.keepPermanently (labelRetentions db videoId) v.createdAt })
      (fun w => rfl)
    rw [hf, h]
    rfl
  · rfl

theorem findVideo_congr (db db' : DB) (videoId : Nat) (h : db'.videos = db.videos) :
    db'.findVideo videoId = db.findVideo videoId := by
  unfold DB.findVideo; rw [h]

theorem autoAssignStep_videos (videoId systemUserId : Nat) (orgLabels : List Label)
    (acc : DB × List String × List String) (s : LabelSuggestion) :
    (autoAssignStep videoId systemUserId orgLabels acc s).1.videos = acc.1.videos := by
  obtain ⟨db, assigned, skipped⟩ := acc
  simp only [autoAssignStep]
  split
  · rfl
  · split
    · rfl
    · split <;> rfl

theorem foldl_autoAssignStep_videos (videoId systemUserId : Nat) (orgLabels : List Label)
    (l : List LabelSuggestion) :
    ∀ acc : DB × List String × List String,
      (l.foldl (autoAssignStep videoId systemUserId orgLabels) acc).1.videos = acc.1.videos := by
  induction l with
  | nil => intro acc; rfl
  | cons s t ih =>
    intro acc
    rw [List.foldl_cons, ih, autoAssignStep_videos]

theorem foldl_insertManualAssignment_videos (videoId userId : Nat) (l : List Nat) :
    ∀ db : DB, (l.foldl (insertManualAssignment videoId userId) db).videos = db.videos := by
  induction l with
  | nil => intro db; rfl
  | cons x t ih => intro db; rw [List.foldl_cons, ih]; rfl

theorem postVideoLabelsCore_videos_none (db : DB) (videoId userId : Nat)
    (labelIds : List Nat) :
    (postVideoLabelsCore db videoId userId labelIds none).1.videos = db.videos := by
  unfold postVideoLabelsCore
  dsimp only
  split
  · rw [foldl_insertManualAssignment_videos]
    split <;> rfl
  · split <;> rfl

theorem postVideoLabelsCore_some_eq (db : DB) (videoId userId : Nat)
    (labelIds : List Nat) (b : Bool) :
    (postVideoLabelsCore db videoId userId labelIds (some b)).1
      = ((postVideoLabelsCore db videoId userId labelIds none).1).updateVideo videoId
          (fun w => { w with keepPermanently := b }) := rfl

theorem postVideoLabelsCore_findVideo (db : DB) (videoId userId : Nat)
    (labelIds : List Nat) (kp : Option Bool) (v : Video)
    (h : db.findVideo videoId = some v) :
    ∃ w, (postVideoLabelsCore db videoId userId labelIds kp).1.findVideo videoId = some w := by
  have hnone : (postVideoLabelsCore db videoId userId labelIds none).1.findVideo videoId = some v := by
    rw [findVideo_congr db _ videoId (postVideoLabelsCore_videos_none db videoId userId labelIds)]
    exact h
  cases kp with
  | none => exact ⟨v, hnone⟩
  | some b =>
    refine ⟨{ v with keepPermanently := b }, ?_⟩
    rw [postVideoLabelsCore_some_eq]
    have hf := findVideo_updateVideo (postVideoLabelsCore db videoId userId labelIds none).1 videoId
      (fun w => { w with keepPermanently := b }) (fun w => rfl)
    rw [hf, hnone]
    rfl

end Cap

namespace Cap

/-- C2: both write paths that change a video's label assignments or its
`keepPermanently` flag — `autoAssignLabels`, and the labels `POST` handler
(once past its auth/ownership guards) — end by re-running
`updateVideoExpiration` unconditionally, so afterwards the stored `expiresAt`
equals the pure Retention Calculator applied to the video's `keepPermanently`,
the `retentionDays` of its currently assigned labels, and its `createdAt`. -/
theorem writePaths_restore_expiration_invariant :
    (∀ (db : DB) (videoId orgId : Nat) (cls : ClassificationResult) (systemUserId : Nat) (v : Video),
        db.findVideo videoId = some v →
        expirationInvariant (autoAssignLabels db videoId orgId cls systemUserId).1 videoId)
    ∧ (∀ (db : DB) (videoId userId : Nat) (labelIds : List Nat) (kp : Option Bool) (v : Video),
        db.findVideo videoId = some v → v.ownerId = userId →
        expirationInvariant (postVideoLabels db videoId (some userId) labelIds kp).1 videoId) := by
  constructor
  · intro db videoId orgId cls systemUserId v h
    unfold autoAssignLabels
    dsimp only
    have hv : (cls.labels.foldl (autoAssignStep videoId systemUserId (orgActiveLabels db orgId)) (db, [], [])).1.findVideo videoId = some v := by
      rw [findVideo_congr db _ videoId (foldl_autoAssignStep_videos videoId systemUserId (orgActiveLabels db orgId) cls.labels (db, [], []))]
      exact h
    exact expirationInvariant_updateVideoExpiration _ videoId v hv
  · intro db videoId userId labelIds kp v h howner
    unfold postVideoLabels
    rw [h]
    simp only [howner, bne_self_eq_false, Bool.false_eq_true, if_false]
    obtain ⟨w, hw⟩ := postVideoLabelsCore_findVideo db videoId userId labelIds kp v h
    exact expirationInvariant_updateVideoExpiration _ videoId w hw

/-- Witness for C2: both write paths applied to the sample store restore the
invariant (here with an empty suggestion list and an empty selection). -/
theorem writePaths_restore_expiration_invariant_witness :
    expirationInvariant (autoAssignLabels sampleDB 1 1 { success := true, labels := [], ragEligibility := .pending, reasoning := "", error := none } 99).1 1
    ∧ expirationInvariant (postVideoLabels sampleDB 1 (some 5) [] none).1 1 :=
  ⟨writePaths_restore_expiration_invariant.1 sampleDB 1 1
      { success := true, labels := [], ragEligibility := .pending, reasoning := "", error := none }
      99 sampleVideo (by decide),
   writePaths_restore_expiration_invariant.2 sampleDB 1 5 [] none sampleVideo (by decide) (by decide)⟩

end Cap

namespace Cap

/-- A sample video whose `ragStatus` has been set to `eligible`. -/
def videoEligible : Video := { sampleVideo with ragStatus := .eligible }

/-- The sample store holding that video. -/
def dbC3 : DB := { sampleDB with videos := [videoEligible] }

/-- C3 counterexample: on an unparseable oracle response,
`classifyVideoLabels` returns `success = false` — but the video row is NOT
left unchanged: its `ragStatus`, previously `eligible`, is overwritten with
`pending` by the write that runs after `parseClassificationResponse`. -/
theorem classify_parse_failure_mutates_video :
    ((classifyVideoLabels dbC3 1 true (.content none) ⟨200, 0⟩).2).success = false
    ∧ (dbC3.findVideo 1).map (fun v => v.ragStatus) = some .eligible
    ∧ (((classifyVideoLabels dbC3 1 true (.content none) ⟨200, 0⟩).1).findVideo 1).map (fun v => v.ragStatus) = some .pending := by
  refine ⟨rfl, rfl, rfl⟩

/-- C3 amended: when the oracle response fails to parse,
`classifyVideoLabels` returns a `ParseError` result (`success = false`,
`ragEligibility` defaulting to `pending`) without throwing, but the video row
IS updated with the failure defaults — `aiSuggestedLabels := []`,
`aiClassifiedAt := now`, `ragStatus := pending` — because the write-back runs
after every parse, successful or not; only a fetch/API failure (caught before
the write) leaves the record unchanged. -/
theorem classify_parse_failure_behavior (db : DB) (videoId : Nat) (now : Date) :
    classifyVideoLabels db videoId true (.content none) now
      = (db.updateVideo videoId (fun v => { v with aiSuggestedLabels := some [], aiClassifiedAt := some now, ragStatus := .pending }),
         { success := false, labels := [], ragEligibility := .pending, reasoning := "Failed to parse classification response", error := some "JSON parse error" })
    ∧ (classifyVideoLabels db videoId true .fetchError now).1 = db := ⟨rfl, rfl⟩

/-- Witness for C3 (amended): instantiated at the sample store. -/
theorem classify_parse_failure_behavior_witness :
    classifyVideoLabels dbC3 1 true (.content none) ⟨200, 0⟩
      = (dbC3.updateVideo 1 (fun v => { v with aiSuggestedLabels := some [], aiClassifiedAt := some ⟨200, 0⟩, ragStatus := .pending }),
         { success := false, labels := [], ragEligibility := .pending, reasoning := "Failed to parse classification response", error := some "JSON parse error" })
    ∧ (classifyVideoLabels dbC3 1 true .fetchError ⟨200, 0⟩).1 = dbC3 :=
  classify_parse_failure_behavior dbC3 1 ⟨200, 0⟩

/-- A sample active `DEMO` label used as a lookup target. -/
def entryLabel : Label :=
  { id := 4, organizationId := 1, name := "DEMO", displayName := "Demo",
    description := none, color := "#3B82F6", category := "content_type",
    retentionDays := none, ragDefault := .eligible, isSystem := true, isActive := true }

/-- The sample store with no assignments at all. -/
def emptyAssignDB : DB := { sampleDB with assignments := [] }

/-- C5: for a suggestion whose name resolves in the organisation's active
label map and for which no (video, label) assignment exists, the suggestion
loop of `autoAssignLabels` assigns exactly when `confidence ≥ 0.75` (the
boundary value `0.75` is assigned), and when `confidence < 0.75` it skips,
appending the name to the `skipped` list. -/
theorem autoAssignStep_confidence_boundary (db : DB) (assigned skipped : List String)
    (videoId systemUserId : Nat) (orgLabels : List Label) (s : LabelSuggestion) (l : Label)
    (hres : labelMapGet orgLabels s.labelName = some l)
    (hnew : db.assignments.filter (fun a => a.videoId == videoId && a.labelId == l.id) = []) :
    (0.75 ≤ s.confidence →
      autoAssignStep videoId systemUserId orgLabels (db, assigned, skipped) s
        = ({ db with assignments := db.assignments ++ [{ id := db.nextId, videoId := videoId, labelId := l.id, assignedById := systemUserId, isAiSuggested := true, aiConfidence := some s.confidence }], nextId := db.nextId + 1 }, assigned ++ [s.labelName], skipped))
    ∧ (s.confidence < 0.75 →
      autoAssignStep videoId systemUserId orgLabels (db, assigned, skipped) s
        = (db, assigned, skipped ++ [s.labelName])) := by
  constructor
  · intro hc
    unfold autoAssignStep
    dsimp only
    rw [if_neg (not_lt.mpr hc), hres]
    dsimp only
    rw [hnew]
    rfl
  · intro hc
    unfold autoAssignStep
    dsimp only
    rw [if_pos hc]

/-- Witness for C5: confidence exactly `0.75` is assigned, `0.7499` is
skipped and recorded, on a store with no existing assignment. -/
theorem autoAssignStep_confidence_boundary_witness :
    (autoAssignStep 1 99 [entryLabel] (emptyAssignDB, [], []) ⟨"DEMO", 0.75⟩
      = ({ emptyAssignDB with assignments := emptyAssignDB.assignments ++ [{ id := emptyAssignDB.nextId, videoId := 1, labelId := entryLabel.id, assignedById := 99, isAiSuggested := true, aiConfidence := some 0.75 }], nextId := emptyAssignDB.nextId + 1 }, ["DEMO"], ([] : List String)))
    ∧ (autoAssignStep 1 99 [entryLabel] (emptyAssignDB, [], []) ⟨"DEMO", 0.7499⟩
      = (emptyAssignDB, ([] : List String), ["DEMO"])) :=
  ⟨(autoAssignStep_confidence_boundary emptyAssignDB [] [] 1 99 [entryLabel] ⟨"DEMO", 0.75⟩
      entryLabel (by decide) (by decide)).1 (by norm_num),
   (autoAssignStep_confidence_boundary emptyAssignDB [] [] 1 99 [entryLabel] ⟨"DEMO", 0.7499⟩
      entryLabel (by decide) (by decide)).2 (by norm_num)⟩

end Cap

namespace Cap

/-- C6: the cleanup job's selection contains exactly the stored videos with a
non-null `expiresAt` that is `≤ now` and `keepPermanently = false`; hence a
video with a future `expiresAt`, or with `keepPermanently = true`, is never
selected. -/
theorem cleanup_selection_exact (db : DB) (now : Date) (v : Video) (hv : v ∈ db.videos) :
    v ∈ expiredSelection db now ↔ ((∃ e, v.expiresAt = some e ∧ e.le now) ∧ v.keepPermanently = false) := by
  unfold expiredSelection expiredFilter
  rw [List.mem_filter]
  constructor
  · rintro ⟨-, h⟩
    rw [Bool.and_eq_true] at h
    obtain ⟨h1, h2⟩ := h
    refine ⟨?_, ?_⟩
    · cases he : v.expiresAt with
      | none => rw [he] at h1; simp at h1
      | some e => rw [he] at h1; exact ⟨e, rfl, of_decide_eq_true h1⟩
    · simpa using h2
  · rintro ⟨⟨e, he, hle⟩, hkp⟩
    refine ⟨hv, ?_⟩
    rw [Bool.and_eq_true]
    constructor
    · rw [he]; exact decide_eq_true hle
    · simp [hkp]

/-- An expired sample video (expiration day 150). -/
def videoExpired : Video := { sampleVideo with expiresAt := some ⟨150, 0⟩ }

/-- A past-expiration sample video protected by `keepPermanently`. -/
def videoKept : Video :=
  { sampleVideo with id := 2, expiresAt := some ⟨150, 0⟩, keepPermanently := true }

/-- A sample video expiring in the future (day 400). -/
def videoFuture : Video := { sampleVideo with id := 3, expiresAt := some ⟨400, 0⟩ }

/-- Store holding the three cleanup test videos. -/
def dbCleanup : DB := { sampleDB with videos := [videoExpired, videoKept, videoFuture] }

/-- Witness for C6: at `now = day 200` the expired video is selected while the
kept and future ones satisfy the selection iff (and are in fact not selected). -/
theorem cleanup_selection_exact_witness :
    (videoExpired ∈ expiredSelection dbCleanup ⟨200, 0⟩
        ↔ ((∃ e, videoExpired.expiresAt = some e ∧ e.le ⟨200, 0⟩) ∧ videoExpired.keepPermanently = false))
    ∧ (videoKept ∈ expiredSelection dbCleanup ⟨200, 0⟩
        ↔ ((∃ e, videoKept.expiresAt = some e ∧ e.le ⟨200, 0⟩) ∧ videoKept.keepPermanently = false)) :=
  ⟨cleanup_selection_exact dbCleanup ⟨200, 0⟩ videoExpired (by decide),
   cleanup_selection_exact dbCleanup ⟨200, 0⟩ videoKept (by decide)⟩

end Cap

namespace Cap

/-! ## Idempotence of the Auto-Assigner -/

/-- Some assignment row links `videoId` to `labelId`. -/
def hasAssignment (db : DB) (videoId labelId : Nat) : Prop :=
  ∃ a ∈ db.assignments, a.videoId = videoId ∧ a.labelId = labelId

theorem filter_assignment_pos_iff (db : DB) (videoId labelId : Nat) :
    (db.assignments.filter (fun a => a.videoId == videoId && a.labelId == labelId)).length > 0
      ↔ hasAssignment db videoId labelId := by
  unfold hasAssignment
  constructor
  · intro h
    obtain ⟨a, ha⟩ := List.exists_mem_of_length_pos h
    rw [List.mem_filter] at ha
    obtain ⟨ham, hp⟩ := ha
    rw [Bool.and_eq_true, beq_iff_eq, beq_iff_eq] at hp
    exact ⟨a, ham, hp⟩
  · rintro ⟨a, ham, h1, h2⟩
    exact List.length_pos_of_mem (List.mem_filter.mpr ⟨ham, by simp [h1, h2]⟩)

theorem autoAssignStep_labels (videoId systemUserId : Nat) (orgLabels : List Label)
    (acc : DB × List String × List String) (s : LabelSuggestion) :
    (autoAssignStep videoId systemUserId orgLabels acc s).1.labels = acc.1.labels := by
  obtain ⟨db, assigned, skipped⟩ := acc
  simp only [autoAssignStep]
  split
  · rfl
  · split
    · rfl
    · split <;> rfl

theorem foldl_autoAssignStep_labels (videoId systemUserId : Nat) (orgLabels : List Label)
    (l : List LabelSuggestion) :
    ∀ acc : DB × List String × List String,
      (l.foldl (autoAssignStep videoId systemUserId orgLabels) acc).1.labels = acc.1.labels := by
  induction l with
  | nil => intro acc; rfl
  | cons s t ih =>
    intro acc
    rw [List.foldl_cons, ih, autoAssignStep_labels]

theorem autoAssignStep_assignments_mono (videoId systemUserId : Nat) (orgLabels : List Label)
    (acc : DB × List String × List String) (s : LabelSuggestion) :
    ∃ t, (autoAssignStep videoId systemUserId orgLabels acc s).1.assignments = acc.1.assignments ++ t := by
  obtain ⟨db, assigned, skipped⟩ := acc
  simp only [autoAssignStep]
  split
  · exact ⟨[], by simp⟩
  · split
    · exact ⟨[], by simp⟩
    · split
      · exact ⟨[], by simp⟩
      · exact ⟨_, rfl⟩

theorem foldl_autoAssignStep_assignments_mono (videoId systemUserId : Nat) (orgLabels : List Label)
    (l : List LabelSuggestion) :
    ∀ acc : DB × List String × List String,
      ∃ t, (l.foldl (autoAssignStep videoId systemUserId orgLabels) acc).1.assignments = acc.1.assignments ++ t := by
  induction l with
  | nil => intro acc; exact ⟨[], by simp⟩
  | cons s r ih =>
    intro acc
    rw [List.foldl_cons]
    obtain ⟨t1, h1⟩ := autoAssignStep_assignments_mono videoId systemUserId orgLabels acc s
    obtain ⟨t2, h2⟩ := ih (autoAssignStep videoId systemUserId orgLabels acc s)
    exact ⟨t1 ++ t2, by rw [h2, h1, List.append_assoc]⟩

theorem hasAssignment_mono_append (db db' : DB) (videoId labelId : Nat) (t : List Assignment)
    (h : db'.assignments = db.assignments ++ t) :
    hasAssignment db videoId labelId → hasAssignment db' videoId labelId := by
  rintro ⟨a, ham, hp⟩
  exact ⟨a, by rw [h]; exact List.mem_append_left _ ham, hp⟩

/-- A suggestion is "covered" by a store when replaying it there must skip:
below threshold, unresolvable, or the (video, label) assignment already exists. -/
def covered (orgLabels : List Label) (db : DB) (videoId : Nat) (s : LabelSuggestion) : Prop :=
  s.confidence < 0.75
  ∨ labelMapGet orgLabels s.labelName = none
  ∨ ∃ l, labelMapGet orgLabels s.labelName = some l ∧ hasAssignment db videoId l.id

theorem covered_mono (orgLabels : List Label) (db db' : DB) (videoId : Nat) (s : LabelSuggestion)
    (t : List Assignment) (h : db'.assignments = db.assignments ++ t) :
    covered orgLabels db videoId s → covered orgLabels db' videoId s := by
  rintro (h1 | h2 | ⟨l, hres, hhas⟩)
  · exact Or.inl h1
  · exact Or.inr (Or.inl h2)
  · exact Or.inr (Or.inr ⟨l, hres, hasAssignment_mono_append db db' videoId l.id t h hhas⟩)

theorem autoAssignStep_establishes (videoId systemUserId : Nat) (orgLabels : List Label)
    (acc : DB × List String × List String) (s : LabelSuggestion) (l : Label)
    (hc : ¬ s.confidence < 0.75) (hres : labelMapGet orgLabels s.labelName = some l) :
    hasAssignment (autoAssignStep videoId systemUserId orgLabels acc s).1 videoId l.id := by
  obtain ⟨db, assigned, skipped⟩ := acc
  simp only [autoAssignStep]
  rw [if_neg hc, hres]
  dsimp only
  by_cases hex : (db.assignments.filter (fun a => a.videoId == videoId && a.labelId == l.id)).length > 0
  · rw [if_pos hex]
    exact (filter_assignment_pos_iff db videoId l.id).mp hex
  · rw [if_neg hex]
    exact ⟨_, List.mem_append_right _ (List.mem_singleton_self _), rfl, rfl⟩

theorem foldl_autoAssignStep_covers (videoId systemUserId : Nat) (orgLabels : List Label)
    (l : List LabelSuggestion) :
    ∀ acc : DB × List String × List String, ∀ s ∈ l,
      covered orgLabels (l.foldl (autoAssignStep videoId systemUserId orgLabels) acc).1 videoId s := by
  induction l with
  | nil => intro acc s hs; cases hs
  | cons s0 r ih =>
    intro acc s hs
    rw [List.foldl_cons]
    rcases List.mem_cons.mp hs with rfl | hsr
    · have hstep : covered orgLabels (autoAssignStep videoId systemUserId orgLabels acc s).1 videoId s := by
        by_cases hc : s.confidence < 0.75
        · exact Or.inl hc
        · cases hres : labelMapGet orgLabels s.labelName with
          | none => exact Or.inr (Or.inl hres)
          | some l0 =>
            exact Or.inr (Or.inr ⟨l0, hres,
              autoAssignStep_establishes videoId systemUserId orgLabels acc s l0 hc hres⟩)
      obtain ⟨t, ht⟩ := foldl_autoAssignStep_assignments_mono videoId systemUserId orgLabels r
        (autoAssignStep videoId systemUserId orgLabels acc s)
      exact covered_mono orgLabels _ _ videoId s t ht hstep
    · exact ih (autoAssignStep videoId systemUserId orgLabels acc s0) s hsr

theorem foldl_autoAssignStep_skips (videoId systemUserId : Nat) (orgLabels : List Label)
    (l : List LabelSuggestion) :
    ∀ acc : DB × List String × List String,
      (∀ s ∈ l, covered orgLabels acc.1 videoId s) →
      (l.foldl (autoAssignStep videoId systemUserId orgLabels) acc).1 = acc.1
      ∧ (l.foldl (autoAssignStep videoId systemUserId orgLabels) acc).2.1 = acc.2.1 := by
  induction l with
  | nil => intro acc h; exact ⟨rfl, rfl⟩
  | cons s r ih =>
    intro acc h
    obtain ⟨db, assigned, skipped⟩ := acc
    have hcov := h s (List.mem_cons_self s r)
    have hstep : autoAssignStep videoId systemUserId orgLabels (db, assigned, skipped) s
        = (db, assigned, skipped ++ [s.labelName]) := by
      rcases hcov with h1 | h2 | ⟨l0, hres, hhas⟩
      · simp only [autoAssignStep]
        rw [if_pos h1]
      · simp only [autoAssignStep]
        by_cases hc : s.confidence < 0.75
        · rw [if_pos hc]
        · rw [if_neg hc, h2]
      · simp only [autoAssignStep]
        by_cases hc : s.confidence < 0.75
        · rw [if_pos hc]
        · rw [if_neg hc, hres]
          dsimp only
          rw [if_pos ((filter_assignment_pos_iff db videoId l0.id).mpr hhas)]
    rw [List.foldl_cons, hstep]
    exact ih (db, assigned, skipped ++ [s.labelName])
      (fun s' hs' => h s' (List.mem_cons_of_mem s hs'))

theorem updateVideoExpiration_assignments (db : DB) (videoId : Nat) :
    (updateVideoExpiration db videoId).1.assignments = db.assignments := by
  unfold updateVideoExpiration
  cases db.findVideo videoId with
  | none => rfl
  | some v =>
    dsimp only
    split
    · rfl
    · split <;> rfl

theorem updateVideoExpiration_labels (db : DB) (videoId : Nat) :
    (updateVideoExpiration db videoId).1.labels = db.labels := by
  unfold updateVideoExpiration
  cases db.findVideo videoId with
  | none => rfl
  | some v =>
    dsimp only
    split
    · rfl
    · split <;> rfl

theorem autoAssignLabels_labels (db : DB) (videoId orgId : Nat)
    (cls : ClassificationResult) (systemUserId : Nat) :
    ((autoAssignLabels db videoId orgId cls systemUserId).1).labels = db.labels := by
  unfold autoAssignLabels
  dsimp only
  rw [updateVideoExpiration_labels, foldl_autoAssignStep_labels]

theorem autoAssignLabels_covers (db : DB) (videoId orgId : Nat)
    (cls : ClassificationResult) (systemUserId : Nat) :
    ∀ s ∈ cls.labels,
      covered (orgActiveLabels db orgId) (autoAssignLabels db videoId orgId cls systemUserId).1 videoId s := by
  intro s hs
  unfold autoAssignLabels
  dsimp only
  have h := foldl_autoAssignStep_covers videoId systemUserId (orgActiveLabels db orgId)
    cls.labels (db, [], []) s hs
  refine covered_mono _ _ _ videoId s [] ?_ h
  rw [updateVideoExpiration_assignments, List.append_nil]

theorem autoAssignLabels_second_run (db1 : DB) (videoId orgId : Nat)
    (cls : ClassificationResult) (systemUserId : Nat)
    (hcov : ∀ s ∈ cls.labels, covered (orgActiveLabels db1 orgId) db1 videoId s) :
    ((autoAssignLabels db1 videoId orgId cls systemUserId).1).assignments = db1.assignments
    ∧ ((autoAssignLabels db1 videoId orgId cls systemUserId).2).assigned = [] := by
  unfold autoAssignLabels
  dsimp only
  obtain ⟨h1, h2⟩ := foldl_autoAssignStep_skips videoId systemUserId (orgActiveLabels db1 orgId)
    cls.labels (db1, [], []) hcov
  constructor
  · rw [updateVideoExpiration_assignments, h1]
  · exact h2

end Cap

namespace Cap

/-- C4: `autoAssignLabels` is idempotent — replaying it with the same
classification result inserts nothing: every suggestion is skipped on the
second run (below threshold, unresolvable, or already assigned by the first
run), so the assignment set after two runs equals the set after one and the
second run's `assigned` list is empty. -/
theorem autoAssignLabels_idempotent (db : DB) (videoId orgId : Nat)
    (cls : ClassificationResult) (systemUserId : Nat) :
    ((autoAssignLabels (autoAssignLabels db videoId orgId cls systemUserId).1 videoId orgId cls systemUserId).1).assignments
      = ((autoAssignLabels db videoId orgId cls systemUserId).1).assignments
    ∧ ((autoAssignLabels (autoAssignLabels db videoId orgId cls systemUserId).1 videoId orgId cls systemUserId).2).assigned = [] := by
  have hol : orgActiveLabels (autoAssignLabels db videoId orgId cls systemUserId).1 orgId
      = orgActiveLabels db orgId := by
    unfold orgActiveLabels
    rw [autoAssignLabels_labels]
  have hcov : ∀ s ∈ cls.labels,
      covered (orgActiveLabels (autoAssignLabels db videoId orgId cls systemUserId).1 orgId)
        (autoAssignLabels db videoId orgId cls systemUserId).1 videoId s := by
    rw [hol]
    exact autoAssignLabels_covers db videoId orgId cls systemUserId
  exact autoAssignLabels_second_run _ videoId orgId cls systemUserId hcov

end Cap

namespace Cap

/-! ## Cleanup: ordering and failure independence -/

/-- Every trace of video `x` is gone from the store: no video row and no
dependent row (comment, assignment, space share, direct share) refers to it. -/
def scrubbed (db : DB) (x : Nat) : Prop :=
  (∀ w ∈ db.videos, w.id ≠ x)
  ∧ (∀ c ∈ db.comments, c.videoId ≠ x)
  ∧ (∀ a ∈ db.assignments, a.videoId ≠ x)
  ∧ (∀ s ∈ db.spaceVideos, s.videoId ≠ x)
  ∧ (∀ s ∈ db.sharedVideos, s.videoId ≠ x)

theorem applyDeletionSteps_full_eq (db : DB) (videoId : Nat) :
    applyDeletionSteps db videoId deletionSteps
      = { db with
          videos := db.videos.filter (fun v => v.id != videoId),
          comments := db.comments.filter (fun c => c.videoId != videoId),
          assignments := db.assignments.filter (fun a => a.videoId != videoId),
          spaceVideos := db.spaceVideos.filter (fun s => s.videoId != videoId),
          sharedVideos := db.sharedVideos.filter (fun s => s.videoId != videoId) } := rfl

theorem applyDeletionSteps_full_scrubs (db : DB) (videoId : Nat) :
    scrubbed (applyDeletionSteps db videoId deletionSteps) videoId := by
  rw [applyDeletionSteps_full_eq]
  refine ⟨?_, ?_, ?_, ?_, ?_⟩ <;>
    · intro w hw
      rw [List.mem_filter] at hw
      exact bne_iff_ne.mp hw.2

theorem scrubbed_deleteStep (f : DB → Nat → DB) (hf : f ∈ deletionSteps)
    (db : DB) (videoId x : Nat) (h : scrubbed db x) : scrubbed (f db videoId) x := by
  obtain ⟨h1, h2, h3, h4, h5⟩ := h
  simp only [deletionSteps, List.mem_cons, List.not_mem_nil, or_false] at hf
  rcases hf with rfl | rfl | rfl | rfl | rfl
  · exact ⟨h1, fun c hc => h2 c (List.mem_of_mem_filter hc), h3, h4, h5⟩
  · exact ⟨h1, h2, fun a ha => h3 a (List.mem_of_mem_filter ha), h4, h5⟩
  · exact ⟨h1, h2, h3, fun s hs => h4 s (List.mem_of_mem_filter hs), h5⟩
  · exact ⟨h1, h2, h3, h4, fun s hs => h5 s (List.mem_of_mem_filter hs)⟩
  · exact ⟨fun w hw => h1 w (List.mem_of_mem_filter hw), h2, h3, h4, h5⟩

theorem scrubbed_applySteps (steps : List (DB → Nat → DB))
    (hsub : ∀ f ∈ steps, f ∈ deletionSteps) :
    ∀ (db : DB) (videoId x : Nat), scrubbed db x → scrubbed (applyDeletionSteps db videoId steps) x := by
  induction steps with
  | nil => intro db videoId x h; exact h
  | cons f rest ih =>
    intro db videoId x h
    simp only [applyDeletionSteps, List.foldl_cons]
    exact ih (fun g hg => hsub g (List.mem_cons_of_mem f hg)) (f db videoId) videoId x
      (scrubbed_deleteStep f (hsub f (List.mem_cons_self f rest)) db videoId x h)

theorem cleanupVideoStep_scrubbed (s3ok : Nat → Bool) (failStep : Nat → Option Nat)
    (acc : DB × List S3Object × CleanupResult) (v : Video) (x : Nat)
    (h : scrubbed acc.1 x) : scrubbed (cleanupVideoStep s3ok failStep acc v).1 x := by
  obtain ⟨db, s3, res⟩ := acc
  simp only [cleanupVideoStep]
  cases failStep v.id with
  | none => exact scrubbed_applySteps deletionSteps (fun f hf => hf) db v.id x h
  | some k =>
    exact scrubbed_applySteps (deletionSteps.take k)
      (fun f hf => List.take_subset k deletionSteps hf) db v.id x h

theorem cleanupVideoStep_establishes (s3ok : Nat → Bool) (failStep : Nat → Option Nat)
    (acc : DB × List S3Object × CleanupResult) (v : Video)
    (hok : failStep v.id = none) :
    scrubbed (cleanupVideoStep s3ok failStep acc v).1 v.id := by
  obtain ⟨db, s3, res⟩ := acc
  simp only [cleanupVideoStep, hok]
  exact applyDeletionSteps_full_scrubs db v.id

theorem cleanupVideoStep_details_mono (s3ok : Nat → Bool) (failStep : Nat → Option Nat)
    (acc : DB × List S3Object × CleanupResult) (v : Video) (d : CleanupDetail)
    (h : d ∈ acc.2.2.details) : d ∈ (cleanupVideoStep s3ok failStep acc v).2.2.details := by
  obtain ⟨db, s3, res⟩ := acc
  simp only [cleanupVideoStep]
  cases failStep v.id with
  | none => exact List.mem_append_left _ h
  | some k => exact List.mem_append_left _ h

theorem cleanupVideoStep_adds_error (s3ok : Nat → Bool) (failStep : Nat → Option Nat)
    (acc : DB × List S3Object × CleanupResult) (v : Video) (k : Nat)
    (hf : failStep v.id = some k) :
    (⟨v.id, v.name, v.expiresAt, false, some "Unknown error"⟩ : CleanupDetail)
      ∈ (cleanupVideoStep s3ok failStep acc v).2.2.details := by
  obtain ⟨db, s3, res⟩ := acc
  simp only [cleanupVideoStep, hf]
  exact List.mem_append_right _ (List.mem_singleton_self _)

theorem foldl_cleanupVideoStep_scrubbed (s3ok : Nat → Bool) (failStep : Nat → Option Nat)
    (l : List Video) :
    ∀ (acc : DB × List S3Object × CleanupResult) (x : Nat),
      scrubbed acc.1 x → scrubbed ((l.foldl (cleanupVideoStep s3ok failStep) acc)).1 x := by
  induction l with
  | nil => intro acc x h; exact h
  | cons v rest ih =>
    intro acc x h
    rw [List.foldl_cons]
    exact ih (cleanupVideoStep s3ok failStep acc v) x
      (cleanupVideoStep_scrubbed s3ok failStep acc v x h)

theorem foldl_cleanupVideoStep_mem_scrubbed (s3ok : Nat → Bool) (failStep : Nat → Option Nat)
    (l : List Video) :
    ∀ (acc : DB × List S3Object × CleanupResult), ∀ v ∈ l, failStep v.id = none →
      scrubbed ((l.foldl (cleanupVideoStep s3ok failStep) acc)).1 v.id := by
  induction l with
  | nil => intro acc v hv; cases hv
  | cons v0 rest ih =>
    intro acc v hv hok
    rw [List.foldl_cons]
    rcases List.mem_cons.mp hv with rfl | hvr
    · exact foldl_cleanupVideoStep_scrubbed s3ok failStep rest _ v.id
        (cleanupVideoStep_establishes s3ok failStep acc v hok)
    · exact ih (cleanupVideoStep s3ok failStep acc v0) v hvr hok

theorem foldl_cleanupVideoStep_details_mono (s3ok : Nat → Bool) (failStep : Nat → Option Nat)
    (l : List Video) :
    ∀ (acc : DB × List S3Object × CleanupResult) (d : CleanupDetail),
      d ∈ acc.2.2.details → d ∈ ((l.foldl (cleanupVideoStep s3ok failStep) acc)).2.2.details := by
  induction l with
  | nil => intro acc d h; exact h
  | cons v rest ih =>
    intro acc d h
    rw [List.foldl_cons]
    exact ih (cleanupVideoStep s3ok failStep acc v) d
      (cleanupVideoStep_details_mono s3ok failStep acc v d h)

theorem foldl_cleanupVideoStep_mem_error (s3ok : Nat → Bool) (failStep : Nat → Option Nat)
    (l : List Video) :
    ∀ (acc : DB × List S3Object × CleanupResult), ∀ v ∈ l, ∀ k, failStep v.id = some k →
      (⟨v.id, v.name, v.expiresAt, false, some "Unknown error"⟩ : CleanupDetail)
        ∈ ((l.foldl (cleanupVideoStep s3ok failStep) acc)).2.2.details := by
  induction l with
  | nil => intro acc v hv; cases hv
  | cons v0 rest ih =>
    intro acc v hv k hf
    rw [List.foldl_cons]
    rcases List.mem_cons.mp hv with rfl | hvr
    · exact foldl_cleanupVideoStep_details_mono s3ok failStep rest _ _
        (cleanupVideoStep_adds_error s3ok failStep acc v k hf)
    · exact ih (cleanupVideoStep s3ok failStep acc v0) v hvr k hf

end Cap

namespace Cap

/-- C7: for each cleanup candidate the dependent rows are deleted in the fixed
order comments → label assignments → space/folder shares → direct shares →
video row (first conjunct: the pipeline is exactly that composition, run after
the best-effort asset deletion); and the candidates are processed
independently — a candidate whose datastore deletion throws is recorded as an
error detail in the report (third conjunct) while every non-failing candidate
is still fully scrubbed from the store (second conjunct). -/
theorem cleanup_order_and_independence :
    (∀ (db : DB) (videoId : Nat),
        applyDeletionSteps db videoId deletionSteps
          = deleteVideoRow (deleteSharedVideos (deleteSpaceVideos (deleteLabelAssignments (deleteComments db videoId) videoId) videoId) videoId) videoId)
    ∧ (∀ (db : DB) (s3 : List S3Object) (now : Date) (s3ok : Nat → Bool)
        (failStep : Nat → Option Nat) (v : Video),
        v ∈ expiredSelection db now → failStep v.id = none →
        scrubbed (cleanupExpiredVideos db s3 now s3ok failStep).1 v.id)
    ∧ (∀ (db : DB) (s3 : List S3Object) (now : Date) (s3ok : Nat → Bool)
        (failStep : Nat → Option Nat) (v : Video) (k : Nat),
        v ∈ expiredSelection db now → failStep v.id = some k →
        (⟨v.id, v.name, v.expiresAt, false, some "Unknown error"⟩ : CleanupDetail)
          ∈ (cleanupExpiredVideos db s3 now s3ok failStep).2.2.details) := by
  refine ⟨fun db videoId => rfl, ?_, ?_⟩
  · intro db s3 now s3ok failStep v hv hok
    exact foldl_cleanupVideoStep_mem_scrubbed s3ok failStep (expiredSelection db now) _ v hv hok
  · intro db s3 now s3ok failStep v k hv hf
    exact foldl_cleanupVideoStep_mem_error s3ok failStep (expiredSelection db now) _ v hv k hf

/-- A second expired sample video. -/
def videoExpired2 : Video := { sampleVideo with id := 2, expiresAt := some ⟨150, 0⟩ }

/-- A store with two expired candidates. -/
def dbC7 : DB := { sampleDB with videos := [videoExpired, videoExpired2] }

/-- Witness for C7: with the deletion of video 1 throwing at step 2 and video
2 succeeding, the report carries an error entry for video 1 while video 2 is
fully scrubbed; the pipeline composition is checked on the sample store. -/
theorem cleanup_order_and_independence_witness :
    (applyDeletionSteps sampleDB 1 deletionSteps
        = deleteVideoRow (deleteSharedVideos (deleteSpaceVideos (deleteLabelAssignments (deleteComments sampleDB 1) 1) 1) 1) 1)
    ∧ scrubbed (cleanupExpiredVideos dbC7 [⟨1, 0⟩] ⟨200, 0⟩ (fun _ => true) (fun i => if i = 1 then some 2 else none)).1 2
    ∧ (⟨1, "v", some ⟨150, 0⟩, false, some "Unknown error"⟩ : CleanupDetail)
        ∈ (cleanupExpiredVideos dbC7 [⟨1, 0⟩] ⟨200, 0⟩ (fun _ => true) (fun i => if i = 1 then some 2 else none)).2.2.details :=
  ⟨cleanup_order_and_independence.1 sampleDB 1,
   cleanup_order_and_independence.2.1 dbC7 [⟨1, 0⟩] ⟨200, 0⟩ (fun _ => true)
     (fun i => if i = 1 then some 2 else none) videoExpired2 (by decide) (by decide),
   cleanup_order_and_independence.2.2 dbC7 [⟨1, 0⟩] ⟨200, 0⟩ (fun _ => true)
     (fun i => if i = 1 then some 2 else none) videoExpired 2 (by decide) (by decide)⟩

end Cap

namespace Cap

/-! ## Promotion fan-out -/

/-- A seeded system label for organisation 1. -/
def sysLabelOrg1 : Label :=
  { id := 1, organizationId := 1, name := "TUTORIAL", displayName := "Tutorial",
    description := none, color := "#10B981", category := "content_type",
    retentionDays := none, ragDefault := .eligible, isSystem := true, isActive := true }

/-- The same system label seeded for organisation 2. -/
def sysLabelOrg2 : Label := { sysLabelOrg1 with id := 2, organizationId := 2 }

/-- A store with two organisations that both have system labels seeded. -/
def dbC8 : DB :=
  { videos := [], labels := [sysLabelOrg1, sysLabelOrg2], assignments := [],
    comments := [], spaceVideos := [], sharedVideos := [], nextId := 10 }

/-- A positive evaluation verdict for a new label `NEWCAT`. -/
def evalC8 : LabelEvaluationResult :=
  { shouldPromote := true, reason := "ok", englishName := some "NEWCAT",
    englishDisplayName := some "New Cat", englishDescription := none,
    duplicateOf := none, suggestedCategory := "content_type" }

/-- C8 counterexample: with organisations 1 and 2 both seeded and the insert
for organisation 1 throwing, `promoteLabelToSystem` propagates the error and
organisation 2 never receives the label — the fan-out does not continue past
the failing organisation, contradicting "a failure on one organization's
insert does not abort the inserts for the other organizations". -/
theorem promote_fanout_abort_counterexample :
    (promoteLabelToSystem dbC8 evalC8 "#111111" none (fun org => org != 1)).2
        = .error "insert failed"
    ∧ ((promoteLabelToSystem dbC8 evalC8 "#111111" none (fun org => org != 1)).1.labels.filter
        (fun l => l.organizationId == 2 && l.name == "NEWCAT")) = [] := by
  refine ⟨rfl, rfl⟩

/-- C8 amended: the fan-out skips organisations that already have a label of
that name (first conjunct: if every listed organisation already has it, the
loop completes with no insert and no failure), but it has no per-organisation
failure handling: when an organisation's insert throws, the error propagates
at once and the organisations not yet processed receive nothing (second
conjunct: the loop stops at the failing head, leaving the store as it was). -/
theorem promote_fanout_amended :
    (∀ (db : DB) (evaluation : LabelEvaluationResult) (color : String) (rd : Option Nat)
        (insertOk : Nat → Bool) (orgs : List Nat),
        (∀ org ∈ orgs, ((db.labels.filter (fun l => l.organizationId == org && l.name == evaluation.englishName.getD "")).take 1).length ≠ 0) →
        promoteFanOut db orgs evaluation color rd insertOk = (db, none))
    ∧ (∀ (db : DB) (evaluation : LabelEvaluationResult) (color : String) (rd : Option Nat)
        (insertOk : Nat → Bool) (org : Nat) (rest : List Nat),
        ((db.labels.filter (fun l => l.organizationId == org && l.name == evaluation.englishName.getD "")).take 1).length = 0 →
        insertOk org = false →
        promoteFanOut db (org :: rest) evaluation color rd insertOk = (db, some "insert failed")) := by
  constructor
  · intro db evaluation color rd insertOk orgs h
    induction orgs with
    | nil => rfl
    | cons org rest ih =>
      unfold promoteFanOut
      dsimp only
      rw [if_neg (h org (List.mem_cons_self org rest))]
      exact ih (fun o ho => h o (List.mem_cons_of_mem org ho))
  · intro db evaluation color rd insertOk org rest h0 hins
    unfold promoteFanOut
    dsimp only
    rw [if_pos h0, hins]
    rfl

/-- Witness for C8 (amended): with `TUTORIAL` already present everywhere the
fan-out is a no-op; with `NEWCAT` missing and the insert for organisation 1
failing, the loop aborts immediately. -/
theorem promote_fanout_amended_witness :
    promoteFanOut dbC8 [1, 2] { evalC8 with englishName := some "TUTORIAL" } "#111111" none (fun _ => true)
        = (dbC8, none)
    ∧ promoteFanOut dbC8 [1, 2] evalC8 "#111111" none (fun org => org != 1)
        = (dbC8, some "insert failed") :=
  ⟨promote_fanout_amended.1 dbC8 { evalC8 with englishName := some "TUTORIAL" } "#111111" none
      (fun _ => true) [1, 2] (by decide),
   promote_fanout_amended.2 dbC8 evalC8 "#111111" none (fun org => org != 1) 1 [2]
      (by decide) (by decide)⟩

end Cap

namespace Cap

/-! ## Seeding -/

/-- The rows the content-type seeding loop produces, ids counting up from `n`. -/
def contentRowsFrom (orgId : Nat) : Nat → List SystemContentLabel → List Label
  | _, [] => []
  | n, lab :: rest => contentLabelRow orgId n lab :: contentRowsFrom orgId (n + 1) rest

/-- The rows the department seeding loop produces, ids counting up from `n`. -/
def departmentRowsFrom (orgId : Nat) : Nat → List SystemDepartmentLabel → List Label
  | _, [] => []
  | n, lab :: rest => departmentLabelRow orgId n lab :: departmentRowsFrom orgId (n + 1) rest

/-- The full seeded vocabulary for an organisation, ids from `n`. -/
def seededSystemLabels (orgId n : Nat) : List Label :=
  contentRowsFrom orgId n SYSTEM_LABELS_content_type
    ++ departmentRowsFrom orgId (n + 9) SYSTEM_LABELS_department

theorem foldl_seedContent (orgId : Nat) (labs : List SystemContentLabel) :
    ∀ db : DB, labs.foldl (seedContentStep orgId) db
      = { db with labels := db.labels ++ contentRowsFrom orgId db.nextId labs,
                  nextId := db.nextId + labs.length } := by
  induction labs with
  | nil => intro db; simp [contentRowsFrom]
  | cons lab rest ih =>
    intro db
    rw [List.foldl_cons, ih]
    unfold seedContentStep
    dsimp only
    rw [contentRowsFrom]
    simp only [DB.mk.injEq, true_and, and_true]
    constructor
    · rw [List.append_assoc, List.singleton_append]
    · simp only [List.length_cons]
      omega

theorem foldl_seedDepartment (orgId : Nat) (labs : List SystemDepartmentLabel) :
    ∀ db : DB, labs.foldl (seedDepartmentStep orgId) db
      = { db with labels := db.labels ++ departmentRowsFrom orgId db.nextId labs,
                  nextId := db.nextId + labs.length } := by
  induction labs with
  | nil => intro db; simp [departmentRowsFrom]
  | cons lab rest ih =>
    intro db
    rw [List.foldl_cons, ih]
    unfold seedDepartmentStep
    dsimp only
    rw [departmentRowsFrom]
    simp only [DB.mk.injEq, true_and, and_true]
    constructor
    · rw [List.append_assoc, List.singleton_append]
    · simp only [List.length_cons]
      omega

/-- An inactive (soft-deleted) system label for organisation 7. -/
def inactiveSystemLabel : Label :=
  { sysLabelOrg1 with id := 7, organizationId := 7, isActive := false }

/-- A store where organisation 7 has only that inactive system label. -/
def dbC9 : DB :=
  { videos := [], labels := [inactiveSystemLabel], assignments := [],
    comments := [], spaceVideos := [], sharedVideos := [], nextId := 10 }

/-- C9 counterexample: organisation 7 has NO active system label (the claim's
no-op precondition fails), yet `seedSystemLabels` inserts nothing, because the
source's existence check filters on `isSystem` only and ignores `isActive`. -/
theorem seedSystemLabels_inactive_counterexample :
    (dbC9.labels.filter (fun l => l.organizationId == 7 && l.isSystem && l.isActive)) = []
    ∧ seedSystemLabels dbC9 7 = dbC9 := by
  refine ⟨rfl, rfl⟩

/-- C9 amended: if ANY system label — active or not — already exists for the
organisation, `seedSystemLabels` is a no-op; otherwise it appends exactly the
full fixed vocabulary: 17 rows, the nine content-type labels followed by the
eight department labels. -/
theorem seedSystemLabels_amended :
    (∀ (db : DB) (orgId : Nat),
        db.labels.filter (fun l => l.organizationId == orgId && l.isSystem) ≠ [] →
        seedSystemLabels db orgId = db)
    ∧ (∀ (db : DB) (orgId : Nat),
        db.labels.filter (fun l => l.organizationId == orgId && l.isSystem) = [] →
        (seedSystemLabels db orgId).labels = db.labels ++ seededSystemLabels orgId db.nextId)
    ∧ (∀ orgId n : Nat, (seededSystemLabels orgId n).length = 17
        ∧ (seededSystemLabels orgId n).map (fun l => (l.name, l.category))
            = [("TUTORIAL", "content_type"), ("ONBOARDING", "content_type"),
               ("PROCESS", "content_type"), ("DEMO", "content_type"),
               ("TROUBLESHOOTING", "content_type"), ("QUICK_ANSWER", "content_type"),
               ("MEETING_RECORDING", "content_type"), ("CLIENT_CALL", "content_type"),
               ("ANNOUNCEMENT", "content_type"), ("SALES", "department"),
               ("TECH", "department"), ("PRODUCT", "department"),
               ("COMPLIANCE", "department"), ("FINANCE", "department"),
               ("HR", "department"), ("SUPPORT", "department"),
               ("MARKETING", "department")]) := by
  refine ⟨?_, ?_, ?_⟩
  · intro db orgId h
    unfold seedSystemLabels
    dsimp only
    cases hfe : db.labels.filter (fun l => l.organizationId == orgId && l.isSystem) with
    | nil => exact absurd hfe h
    | cons x xs => rfl
  · intro db orgId h
    unfold seedSystemLabels
    dsimp only
    rw [h]
    rw [if_neg (by decide)]
    rw [foldl_seedContent, foldl_seedDepartment]
    dsimp only
    unfold seededSystemLabels
    rw [List.append_assoc]
    rfl
  · intro orgId n
    exact ⟨rfl, rfl⟩

/-- Witness for C9 (amended): a fresh organisation receives the 17 labels; an
organisation with an existing (inactive) system label is untouched. -/
theorem seedSystemLabels_amended_witness :
    seedSystemLabels dbC9 7 = dbC9
    ∧ (seedSystemLabels sampleDB 8).labels = sampleDB.labels ++ seededSystemLabels 8 sampleDB.nextId
    ∧ (seededSystemLabels 8 10).length = 17 :=
  ⟨seedSystemLabels_amended.1 dbC9 7 (by decide),
   (seedSystemLabels_amended.2.1) sampleDB 8 (by decide),
   (seedSystemLabels_amended.2.2 8 10).1⟩

end Cap

namespace Cap

/-- C10: when the oracle document carries falsy confidences, the parser
substitutes the fixed defaults — primary content type `0.8`, secondary
`0.8 × 0.7 = 0.56`, department `0.7`; `0.8` is not below the `0.75` threshold
used by the suggestion loop, while a `0.56` or `0.7` suggestion is always
skipped by the loop (recorded in the skipped list) on any store. -/
theorem parse_confidence_defaults (data : OracleData) (p s d : String)
    (hp : data.contentTypePrimary = some p) (hp2 : p ≠ "")
    (hs : data.contentTypeSecondary = some s) (hs2 : s ≠ "")
    (hd : data.departmentLabel = some d) (hd2 : d ≠ "")
    (hc : data.contentTypeConfidence = none ∨ data.contentTypeConfidence = some 0)
    (hdc : data.departmentConfidence = none ∨ data.departmentConfidence = some 0) :
    (parseClassificationResponse (some data)).labels
        = [⟨p, 0.8⟩, ⟨s, 0.56⟩, ⟨d, 0.7⟩]
    ∧ ¬ ((0.8 : Rat) < 0.75)
    ∧ (∀ (db : DB) (assigned skipped : List String) (videoId systemUserId : Nat)
        (orgLabels : List Label) (nm : String),
        autoAssignStep videoId systemUserId orgLabels (db, assigned, skipped) ⟨nm, 0.56⟩
          = (db, assigned, skipped ++ [nm])
        ∧ autoAssignStep videoId systemUserId orgLabels (db, assigned, skipped) ⟨nm, 0.7⟩
          = (db, assigned, skipped ++ [nm])) := by
  refine ⟨?_, by norm_num, ?_⟩
  · unfold parseClassificationResponse
    dsimp only
    have hnum : numOr data.contentTypeConfidence 0.8 = 0.8 := by
      rcases hc with h | h <;> simp [numOr, h]
    have hnumd : numOr data.departmentConfidence 0.7 = 0.7 := by
      rcases hdc with h | h <;> simp [numOr, h]
    rw [hp, hs, hd, hnum, hnumd]
    simp [truthyStr, hp2, hs2, hd2]
    norm_num
  · intro db assigned skipped videoId systemUserId orgLabels nm
    constructor <;>
      · unfold autoAssignStep
        dsimp only
        rw [if_pos (by norm_num)]

/-- The oracle document used as the C10 witness: all three label fields
present, both confidence fields absent. -/
def oracleDataC10 : OracleData :=
  { contentTypePrimary := some "TUTORIAL", contentTypeConfidence := none,
    contentTypeSecondary := some "DEMO", departmentLabel := some "TECH",
    departmentConfidence := none, ragEligibility := none, reasoning := none }

/-- Witness for C10: concrete defaults and the skip behaviour at `0.56`/`0.7`. -/
theorem parse_confidence_defaults_witness :
    (parseClassificationResponse (some oracleDataC10)).labels
        = [⟨"TUTORIAL", 0.8⟩, ⟨"DEMO", 0.56⟩, ⟨"TECH", 0.7⟩]
    ∧ ¬ ((0.8 : Rat) < 0.75)
    ∧ (autoAssignStep 1 99 [entryLabel] (emptyAssignDB, [], []) ⟨"DEMO", 0.56⟩
          = (emptyAssignDB, [], ["DEMO"])
       ∧ autoAssignStep 1 99 [entryLabel] (emptyAssignDB, [], []) ⟨"TECH", 0.7⟩
          = (emptyAssignDB, [], ["TECH"])) :=
  have h := parse_confidence_defaults oracleDataC10 "TUTORIAL" "DEMO" "TECH"
    rfl (by decide) rfl (by decide) rfl (by decide) (Or.inl rfl) (Or.inl rfl)
  ⟨h.1, h.2.1,
   ⟨(h.2.2 emptyAssignDB [] [] 1 99 [entryLabel] "DEMO").1,
    (h.2.2 emptyAssignDB [] [] 1 99 [entryLabel] "TECH").2⟩⟩

end Cap
